import Mathlib

/-!
Shallow embedding of the `requru` proxy-routing layer
(`src/requru/session.py`, `src/requru/nordvpn.py`, `src/requru/proxyrack.py`)
and proofs about its provider-selection and retry orchestration.

The transport collaborator (`requests.Session.request`) is modelled as an
oracle `send : Nat → Option Response` indexed by the session attempt counter
`self._retries`: `none` models a caught transport exception
(`ConnectionError`, which in `requests` subsumes `SSLError`/`ProxyError`,
or `ChunkedEncodingError`), `some resp` a delivered response.
-/

namespace Requru

/-- Paradigm tag of a proxy provider (`ProviderParadigm` in `proxy_provider.py`). -/
inductive ProviderParadigm
  | DNS
  | DIRECT
deriving DecidableEq, Repr

/-- An HTTP response, abstracted to its status code. -/
structure Response where
  status_code : Nat
deriving DecidableEq, Repr

/-- Python truthiness of a `requests` response object: `bool(r)` is `r.ok`,
true exactly when the status code is below 400. -/
def Response.ok (r : Response) : Bool := r.status_code < 400

/-- The provider data the orchestration loop in `session.py` reads:
`strength` (sort key), `max_retries` (per-provider attempt budget) and
`paradigm`. `name` stands for the provider's identity. -/
structure ProxyProvider where
  name : String
  strength : Rat
  max_retries : Nat
  paradigm : ProviderParadigm
deriving DecidableEq, Repr

/-- The `Session` configuration fields consulted by the attempt loop. -/
structure Config where
  sticky_proxies : Bool
  retry_on_failure : Bool
  max_retries : Nat
  is_successful_response : Response → Bool

/-- `r and self.is_successful_response(r)` in Python: `r` must be non-`None`,
truthy (`r.ok`) and satisfy the success predicate (lines 232 and 259 of
`session.py`). -/
def successfulAndTruthy (cfg : Config) : Option Response → Bool
  | none => false
  | some resp => resp.ok && cfg.is_successful_response resp

/-- `self.is_successful_response(r) if r is not None else False`
(line 86 of `session.py`): no truthiness test here, an explicit `None` check. -/
def successOf (cfg : Config) : Option Response → Bool
  | none => false
  | some resp => cfg.is_successful_response resp

/-- One insertion step of the stable descending-by-`strength` sort:
an element is placed before the first element whose strength it
reaches, so earlier list elements stay before equal-strength later ones,
matching Python's stable `sorted(..., key=lambda p: p.strength, reverse=True)`. -/
def insertByStrength (p : ProxyProvider) : List ProxyProvider → List ProxyProvider
  | [] => [p]
  | q :: qs => if q.strength ≤ p.strength then p :: q :: qs else q :: insertByStrength p qs

/-- `sorted(self.proxy_providers, key=lambda p: p.strength, reverse=True)`
(line 57 of `session.py`): stable sort, higher strength first. -/
def sortedProviders : List ProxyProvider → List ProxyProvider
  | [] => []
  | p :: ps => insertByStrength p (sortedProviders ps)

/-- The mutable `Session` fields threaded through one logical request:
`self._retries`, `self._last_successful_provider`, and a counter of
`self.reset_adapters()` calls. -/
structure SessState where
  retries : Nat
  last_successful_provider : Option ProxyProvider
  resets : Nat
deriving Repr

/-- Which proxy configuration an attempt was sent under. -/
inductive AttemptCtx
  | stickyReuse
  | withProvider (p : ProxyProvider)
  | noProxy
deriving DecidableEq, Repr

/-- Observable events of one logical request: entering a provider's loop
iteration (`"Trying provider ..."`), a `provider.get_proxy` call, one send
attempt with its outcome (`none` = caught transport error), and an
adapter reset. -/
inductive Event
  | tryProvider (p : ProxyProvider)
  | acquire (p : ProxyProvider)
  | attempt (ctx : AttemptCtx) (outcome : Option Response)
  | adapterReset
deriving DecidableEq, Repr

/-- The `try/except` around one `super().request(*super_request_params)`
call (the same block at lines 74-83, 220-230 and 248-257 of `session.py`):
on a delivered response the local `r` is assigned; on a caught transport
exception (`ConnectionError`, subsuming `SSLError` and `ProxyError`, or
`ChunkedEncodingError`) `r` keeps its previous value and
`self.reset_adapters()` runs.  Returns the new `r`, the new reset count
and the recorded events. -/
def attemptStep (ctx : AttemptCtx) (outcome : Option Response) (r : Option Response)
    (resets : Nat) : Option Response × Nat × List Event :=
  match outcome with
  | none => (r, resets + 1, [Event.attempt ctx none, Event.adapterReset])
  | some resp => (some resp, resets, [Event.attempt ctx (some resp)])

/-- How the inner `while True` loop of `request_with_providers` exits:
`returned` for the `return r` paths, `advance` for the `break` that moves
to the next provider. -/
inductive InnerExit
  | returned
  | advance
deriving DecidableEq, Repr

/-- Result of one provider's inner loop: the exit kind, the value of the
local `r`, the final `provider_retries`, the session state and the trace. -/
structure InnerResult where
  exit : InnerExit
  r : Option Response
  provider_retries : Nat
  st : SessState
  trace : List Event
deriving Repr

/-- The inner `while True` loop of `Session.request_with_providers`
(lines 72-125 of `session.py`), for one provider.  On a transport
exception the local `r` keeps its previous (stale) value and the adapters
are reset; `provider_retries` and `self._retries` are incremented
unconditionally; success is judged on `r` (`False` when `r is None`); on
success `self._last_successful_provider` is set; then the `return` check
(`not retry_on_failure or _retries >= max_retries or success`), then the
per-provider `break` check, then an optional rotation `get_proxy`. -/
def providerLoop (cfg : Config) (send : Nat → Option Response) (provider : ProxyProvider)
    (provider_retries : Nat) (r : Option Response) (st : SessState) : InnerResult :=
  let step := attemptStep (AttemptCtx.withProvider provider) (send st.retries) r st.resets
  let r' : Option Response := step.1
  let resets' : Nat := step.2.1
  let evs : List Event := step.2.2
  let provider_retries' := provider_retries + 1
  let success : Bool := successOf cfg r'
  let lsp' : Option ProxyProvider :=
    if success then some provider else st.last_successful_provider
  let st' : SessState :=
    { retries := st.retries + 1, last_successful_provider := lsp', resets := resets' }
  if cfg.retry_on_failure = false ∨ cfg.max_retries ≤ st'.retries ∨ success = true then
    { exit := InnerExit.returned, r := r', provider_retries := provider_retries',
      st := st', trace := evs }
  else if h : provider.max_retries ≤ provider_retries' then
    { exit := InnerExit.advance, r := r', provider_retries := provider_retries',
      st := st', trace := evs }
  else
    let evs2 : List Event :=
      if cfg.sticky_proxies = true ∨
          (cfg.sticky_proxies = false ∧ provider.paradigm = ProviderParadigm.DIRECT) then
        evs ++ [Event.acquire provider]
      else evs
    let res := providerLoop cfg send provider provider_retries' r' st'
    { res with trace := evs2 ++ res.trace }
termination_by provider.max_retries - provider_retries
decreasing_by omega

/-- The `for provider in sorted_providers` loop of `request_with_providers`:
each iteration acquires a proxy, runs the inner loop from
`provider_retries = 0`, returns on `returned`, continues on `advance`
threading the stale `r`.  When the list is exhausted the Python function
falls off the end of the `for` loop and implicitly returns `None`. -/
def providersFor (cfg : Config) (send : Nat → Option Response) :
    List ProxyProvider → Option Response → SessState →
    Option Response × SessState × List Event
  | [], _r, st => (none, st, [])
  | provider :: rest, r, st =>
    let res := providerLoop cfg send provider 0 r st
    let evs := Event.tryProvider provider :: Event.acquire provider :: res.trace
    match res.exit with
    | InnerExit.returned => (res.r, res.st, evs)
    | InnerExit.advance =>
      let out := providersFor cfg send rest res.r res.st
      (out.1, out.2.1, evs ++ out.2.2)

/-- `Session.request_with_providers` (lines 50-125 of `session.py`):
sorts the providers by descending strength, initialises the local
`r = None`, and runs the provider loop. -/
def request_with_providers (cfg : Config) (send : Nat → Option Response)
    (provs : List ProxyProvider) (st : SessState) :
    Option Response × SessState × List Event :=
  providersFor cfg send (sortedProviders provs) none st

/-- The `while self._retries < self.max_retries and not self.proxy_providers`
loop of `Session.request` (lines 246-261 of `session.py`).  The return
check uses Python truthiness: `if not retry_on_failure or (r and
is_successful_response(r)): return r`. -/
def noProviderLoop (cfg : Config) (send : Nat → Option Response)
    (r : Option Response) (st : SessState) :
    Option Response × SessState × List Event :=
  if h : st.retries < cfg.max_retries then
    let step := attemptStep AttemptCtx.noProxy (send st.retries) r st.resets
    let r' : Option Response := step.1
    let evs : List Event := step.2.2
    let st' : SessState := { st with retries := st.retries + 1, resets := step.2.1 }
    if cfg.retry_on_failure = false ∨ successfulAndTruthy cfg r' = true then
      (r', st', evs)
    else
      let out := noProviderLoop cfg send r' st'
      (out.1, out.2.1, evs ++ out.2.2)
  else (r, st, [])
termination_by cfg.max_retries - st.retries
decreasing_by simp_all; omega

/-- The value, final state and trace of one logical request. -/
structure RequestResult where
  r : Option Response
  st : SessState
  trace : List Event
deriving Repr

/-- The body of `Session.request` after the configuration check
(lines 191-263 of `session.py`): reset `self._retries`, optionally take the
sticky-reuse branch (one attempt on the remembered provider's proxy, no
`get_proxy` call; on failure clear `self._last_successful_provider`), then
either `request_with_providers` (providers configured) or the flat
no-provider retry loop. -/
def requestBody (cfg : Config) (send : Nat → Option Response)
    (provs : List ProxyProvider) (lsp0 : Option ProxyProvider) (resets0 : Nat) :
    RequestResult :=
  let st0 : SessState := { retries := 0, last_successful_provider := lsp0, resets := resets0 }
  let r0 : Option Response := none
  if lsp0.isSome = true ∧ cfg.sticky_proxies = true then
    let step := attemptStep AttemptCtx.stickyReuse (send 0) r0 resets0
    let r1 : Option Response := step.1
    let evs1 : List Event := step.2.2
    let st1 : SessState := { retries := 1, last_successful_provider := lsp0, resets := step.2.1 }
    if successfulAndTruthy cfg r1 = true then
      { r := r1, st := st1, trace := evs1 }
    else
      let st2 : SessState := { st1 with last_successful_provider := none }
      if provs ≠ [] then
        let out := request_with_providers cfg send provs st2
        { r := out.1, st := out.2.1, trace := evs1 ++ out.2.2 }
      else
        let out := noProviderLoop cfg send r1 st2
        { r := out.1, st := out.2.1, trace := evs1 ++ out.2.2 }
  else
    if provs ≠ [] then
      let out := request_with_providers cfg send provs st0
      { r := out.1, st := out.2.1, trace := out.2.2 }
    else
      let out := noProviderLoop cfg send r0 st0
      { r := out.1, st := out.2.1, trace := out.2.2 }

/-- The `ValueError` raised when both `proxies` and `proxy_providers` are
given (lines 187-190 of `session.py`). -/
inductive ConfigError
  | proxiesAndProviders
deriving DecidableEq, Repr

/-- `Session.request`: the configuration check, then the request body.
`proxies_arg` models the truthiness of the caller-supplied `proxies` dict. -/
def request (cfg : Config) (send : Nat → Option Response) (provs : List ProxyProvider)
    (proxies_arg : Bool) (lsp0 : Option ProxyProvider) (resets0 : Nat) :
    Except ConfigError RequestResult :=
  if proxies_arg = true ∧ provs ≠ [] then
    Except.error ConfigError.proxiesAndProviders
  else
    Except.ok (requestBody cfg send provs lsp0 resets0)

/-- Recognises attempt events. -/
def isAttempt : Event → Bool
  | Event.attempt _ _ => true
  | _ => false

/-- Number of send attempts recorded in a trace. -/
def attemptCount (tr : List Event) : Nat := tr.countP isAttempt

/-- Recognises adapter-reset events. -/
def isReset : Event → Bool
  | Event.adapterReset => true
  | _ => false

/-- Number of `reset_adapters` calls recorded in a trace. -/
def resetCount (tr : List Event) : Nat := tr.countP isReset

/-- Recognises attempts that raised a (caught) transport error. -/
def isTransportErrorAttempt : Event → Bool
  | Event.attempt _ none => true
  | _ => false

/-- Number of transport-error attempts recorded in a trace. -/
def transportErrorCount (tr : List Event) : Nat := tr.countP isTransportErrorAttempt

/-- The providers whose loop iteration was entered, in trace order. -/
def visitedProviders (tr : List Event) : List ProxyProvider :=
  tr.filterMap fun e => match e with
    | Event.tryProvider p => some p
    | _ => none

/-- Total number of attempts the provider loop makes when no attempt
succeeds and the session ceiling never intervenes: each provider gets
`max 1 p.max_retries` attempts before the loop advances. -/
def providerExhaustionBudget (l : List ProxyProvider) : Nat :=
  (l.map fun p => max 1 p.max_retries).sum

/-! ## Nordvpn candidate-pool provider (`nordvpn.py`) -/

/-- One entry of the recommendation endpoint's JSON array. -/
structure Server where
  hostname : String
  status : String
  load : Int
deriving DecidableEq, Repr

/-- Outcome of `requests.get(Nordvpn.API_URL).json()`: the GET itself can
raise (`transportError`, not caught by the code), the body can fail to
parse (`malformed`, raising the caught `JSONDecodeError`), or a server
list is returned. -/
inductive FetchOutcome
  | transportError
  | malformed
  | servers (resp : List Server)
deriving DecidableEq, Repr

/-- `Nordvpn.EXAMPLE_PROXY_URLS`, the hardcoded fallback hostname list. -/
def EXAMPLE_PROXY_URLS : List String :=
  ["cl33.nordvpn.com", "cl34.nordvpn.com", "cl35.nordvpn.com", "cl36.nordvpn.com",
   "cl37.nordvpn.com", "ar56.nordvpn.com", "ar58.nordvpn.com"]

/-- `Nordvpn.TTL` in seconds. -/
def NORD_TTL : Int := 3600

/-- `Nordvpn.DEFAULT_PORT`. -/
def NORD_DEFAULT_PORT : Nat := 89

/-- The class-level mutable state of `Nordvpn`:
`proxy_domains`, `updated_at` and the rotation cursor `_index`. -/
structure NordState where
  proxy_domains : List String
  updated_at : Int
  index : Nat
deriving DecidableEq, Repr

/-- Result of `get_best_server_domains`: the new class state and whether an
exception (the uncaught transport error) propagates to the caller. -/
structure RefreshResult where
  st : NordState
  raised : Bool
deriving DecidableEq, Repr

/-- `Nordvpn.get_best_server_domains` (lines 35-59 of `nordvpn.py`).
Refreshes only when the pool is empty or the TTL has elapsed.  Only
`JSONDecodeError` is caught (falling back to `EXAMPLE_PROXY_URLS`); a
transport error from `requests.get` propagates, but the `finally` block
still shuffles, stamps `updated_at = now` and resets `_index` first.
`shuffle` models `random.shuffle`'s in-place permutation. -/
def get_best_server_domains (shuffle : List String → List String) (now : Int)
    (fetch : FetchOutcome) (min_load max_load : Int) (st : NordState) : RefreshResult :=
  if st.proxy_domains = [] ∨ NORD_TTL < now - st.updated_at then
    let step : List String × Bool :=
      match fetch with
      | FetchOutcome.transportError => (st.proxy_domains, true)
      | FetchOutcome.malformed => (EXAMPLE_PROXY_URLS, false)
      | FetchOutcome.servers resp =>
        let filtered := resp.filter fun s =>
          s.status == "online" && decide (min_load ≤ s.load) && decide (s.load ≤ max_load)
        (filtered.map fun s => s.hostname, false)
    { st := { proxy_domains := shuffle step.1, updated_at := now, index := 0 },
      raised := step.2 }
  else
    { st := st, raised := false }

/-- Result of `Nordvpn.get_new_proxy`: the proxy URL (or `none` when an
exception propagates: transport error during refresh, or `IndexError` on
an empty/short pool) and the new class state. -/
structure NordAcquireResult where
  proxy_url : Option String
  st : NordState
deriving DecidableEq, Repr

/-- The proxy-URL f-string of `get_new_proxy`:
`https://` user `:` password `@` host `:` DEFAULT_PORT. -/
def nordProxyUrl (user password host : String) : String :=
  "https://" ++ user ++ ":" ++ password ++ "@" ++ host ++ ":" ++ toString NORD_DEFAULT_PORT

/-- `Nordvpn.get_new_proxy` (lines 61-70 of `nordvpn.py`): refresh with the
default load bounds `1, 60`, read `proxy_domains[_index]`, advance
`_index` modulo the pool length, and build the proxy URL. -/
def nord_get_new_proxy (shuffle : List String → List String) (now : Int)
    (fetch : FetchOutcome) (user password : String) (st : NordState) :
    NordAcquireResult :=
  let refreshed := get_best_server_domains shuffle now fetch 1 60 st
  if refreshed.raised then
    { proxy_url := none, st := refreshed.st }
  else if hidx : refreshed.st.index < refreshed.st.proxy_domains.length then
    let host := refreshed.st.proxy_domains.get ⟨refreshed.st.index, hidx⟩
    let st' : NordState :=
      { refreshed.st with
        index := (refreshed.st.index + 1) % refreshed.st.proxy_domains.length }
    { proxy_url := some (nordProxyUrl user password host), st := st' }
  else
    { proxy_url := none, st := refreshed.st }

/-- Iterated `get_new_proxy` calls: call `i` (0-based) uses time `nows i`
and fetch outcome `fetches i`; returns the proxy URLs in call order and
the final class state. -/
def nordCalls (shuffle : List String → List String) (nows : Nat → Int)
    (fetches : Nat → FetchOutcome) (user password : String) :
    Nat → Nat → NordState → List (Option String) × NordState
  | _i, 0, st => ([], st)
  | i, k + 1, st =>
    let res := nord_get_new_proxy shuffle (nows i) (fetches i) user password st
    let rest := nordCalls shuffle nows fetches user password (i + 1) k res.st
    (res.proxy_url :: rest.1, rest.2)

/-! ## Proxyrack provider (`proxyrack.py`) -/

/-- `uuid4()` modelled as a fresh draw from a counter-backed generator. -/
structure UuidGen where
  counter : Nat
deriving DecidableEq, Repr

/-- Draw a fresh uuid: distinct draws yield distinct values. -/
def freshUuid (g : UuidGen) : Nat × UuidGen :=
  (g.counter, { counter := g.counter + 1 })

/-- `ProxyrackOptions` (lines 9-17 of `proxyrack.py`): `country`,
`refreshMinutes`, and the uuid-valued `session`. -/
structure ProxyrackOptions where
  country : Option String
  refreshMinutes : Nat
  session : Nat
deriving DecidableEq, Repr

/-- Instantiating `ProxyrackOptions()`: the dataclass `default_factory`
runs, drawing a fresh uuid for `session`. -/
def mkProxyrackOptions (g : UuidGen) : ProxyrackOptions × UuidGen :=
  let (u, g') := freshUuid g
  ({ country := none, refreshMinutes := 60 * 24, session := u }, g')

/-- The module-level constants of `proxyrack.py` that get_new_proxy reads,
plus the `options: ProxyrackOptions = ProxyrackOptions()` default value of
`ProxyrackProvider.__init__`, which Python evaluates exactly once, when
the `def` statement in the class body executes. -/
structure ProxyrackModule where
  user : String
  api_key : String
  defaultOptions : ProxyrackOptions
  gen : UuidGen
deriving DecidableEq, Repr

/-- Executing the `ProxyrackProvider` class body: the `__init__` default
`ProxyrackOptions()` is constructed once, drawing one uuid. -/
def loadProxyrackModule (user api_key : String) (g : UuidGen) : ProxyrackModule :=
  let (opts, g') := mkProxyrackOptions g
  { user := user, api_key := api_key, defaultOptions := opts, gen := g' }

/-- The per-instance fields of `ProxyrackProvider` set by `__init__`
(lines 30-41 of `proxyrack.py`). -/
structure ProxyrackProvider' where
  max_tries_per_request : Nat
  use_sticky_ports : Bool
  force_port : Option Nat
  options : ProxyrackOptions
deriving DecidableEq, Repr

/-- `ProxyrackProvider.__init__` with default `max_tries_per_request`,
`use_sticky_ports` and `force_port`, threading the uuid generator to
record whether construction draws a uuid: with `opts = none` (the caller
omitted the argument) the instance receives the shared
class-definition-time default object and no uuid is drawn; with an
explicit options value the caller's object is stored. -/
def mkProxyrackProvider (m : ProxyrackModule) (opts : Option ProxyrackOptions)
    (g : UuidGen) : ProxyrackProvider' × UuidGen :=
  match opts with
  | none =>
    ({ max_tries_per_request := 10, use_sticky_ports := false, force_port := none,
       options := m.defaultOptions }, g)
  | some o =>
    ({ max_tries_per_request := 10, use_sticky_ports := false, force_port := none,
       options := o }, g)

/-- First `ProxyrackProvider()` constructed after module load, without an
explicit `options` argument. -/
def proxyrackP1 (user api_key : String) (g : UuidGen) : ProxyrackProvider' × UuidGen :=
  mkProxyrackProvider (loadProxyrackModule user api_key g) none
    (loadProxyrackModule user api_key g).gen

/-- Second `ProxyrackProvider()` constructed after the first, without an
explicit `options` argument. -/
def proxyrackP2 (user api_key : String) (g : UuidGen) : ProxyrackProvider' × UuidGen :=
  mkProxyrackProvider (loadProxyrackModule user api_key g) none
    (proxyrackP1 user api_key g).2

/-- The `"-".join(f"{k}-{v}" for k, v in asdict(options).items() if v is not
None)` username suffix: dataclass field order `country`, `refreshMinutes`,
`session`. -/
def proxyrackOptionStr (o : ProxyrackOptions) : String :=
  let segments : List String :=
    (match o.country with
      | none => []
      | some c => ["country-" ++ c])
    ++ ["refreshMinutes-" ++ toString o.refreshMinutes, "session-" ++ toString o.session]
  String.intercalate "-" segments

/-- The class-level sticky-port state `_sticky_ports_index`; the pool is
`range(10000, 14000)`. -/
def proxyrackStickyPorts : List Nat := (List.range 4000).map fun i => 10000 + i

/-- `ProxyrackProvider.get_new_proxy` (lines 43-65 of `proxyrack.py`):
builds the proxy URL from user, option string, api key, fixed DNS and the
chosen port (forced port overrides; sticky ports rotate the shared class
cursor; otherwise the fixed random port 9000).  Returns the URL and the
new class-level cursor. -/
def proxyrack_get_new_proxy (m : ProxyrackModule) (p : ProxyrackProvider')
    (sticky_ports_index : Nat) : String × Nat :=
  let option_str := proxyrackOptionStr p.options
  let final_option_str := "-" ++ option_str
  let (port, idx') : Nat × Nat :=
    match p.force_port with
    | some fp => (fp, sticky_ports_index)
    | none =>
      if p.use_sticky_ports then
        (proxyrackStickyPorts.getD sticky_ports_index 0,
          (sticky_ports_index + 1) % proxyrackStickyPorts.length)
      else (9000, sticky_ports_index)
  ("http://" ++ m.user ++ final_option_str ++ ":" ++ m.api_key
      ++ "@premium.residential.proxyrack.net:" ++ toString port,
    idx')

/-! ## Trace bookkeeping lemmas -/

theorem attemptCount_append (a b : List Event) :
    attemptCount (a ++ b) = attemptCount a + attemptCount b := by
  simp [attemptCount, List.countP_append]

theorem resetCount_append (a b : List Event) :
    resetCount (a ++ b) = resetCount a + resetCount b := by
  simp [resetCount, List.countP_append]

theorem transportErrorCount_append (a b : List Event) :
    transportErrorCount (a ++ b) = transportErrorCount a + transportErrorCount b := by
  simp [transportErrorCount, List.countP_append]

theorem visitedProviders_append (a b : List Event) :
    visitedProviders (a ++ b) = visitedProviders a ++ visitedProviders b := by
  simp [visitedProviders, List.filterMap_append]

@[simp] theorem attemptCount_acquire_single (p : ProxyProvider) :
    attemptCount [Event.acquire p] = 0 := by
  simp [attemptCount, List.countP_cons, List.countP_nil, isAttempt]

@[simp] theorem resetCount_acquire_single (p : ProxyProvider) :
    resetCount [Event.acquire p] = 0 := by
  simp [resetCount, List.countP_cons, List.countP_nil, isReset]

@[simp] theorem transportErrorCount_acquire_single (p : ProxyProvider) :
    transportErrorCount [Event.acquire p] = 0 := by
  simp [transportErrorCount, List.countP_cons, List.countP_nil, isTransportErrorAttempt]

@[simp] theorem visitedProviders_acquire_single (p : ProxyProvider) :
    visitedProviders [Event.acquire p] = [] := by
  simp [visitedProviders]

theorem attemptCount_acquire (tr : List Event) (p : ProxyProvider) :
    attemptCount (tr ++ [Event.acquire p]) = attemptCount tr := by
  simp [attemptCount, List.countP_append, List.countP_cons, List.countP_nil, isAttempt]

theorem resetCount_acquire (tr : List Event) (p : ProxyProvider) :
    resetCount (tr ++ [Event.acquire p]) = resetCount tr := by
  simp [resetCount, List.countP_append, List.countP_cons, List.countP_nil, isReset]

theorem transportErrorCount_acquire (tr : List Event) (p : ProxyProvider) :
    transportErrorCount (tr ++ [Event.acquire p]) = transportErrorCount tr := by
  simp [transportErrorCount, List.countP_append, List.countP_cons, List.countP_nil,
    isTransportErrorAttempt]

theorem visitedProviders_acquire (tr : List Event) (p : ProxyProvider) :
    visitedProviders (tr ++ [Event.acquire p]) = visitedProviders tr := by
  simp [visitedProviders, List.filterMap_append]

theorem attemptStep_spec (ctx : AttemptCtx) (o : Option Response)
    (r : Option Response) (k : Nat) :
    attemptCount (attemptStep ctx o r k).2.2 = 1 ∧
    (attemptStep ctx o r k).2.1 = k + resetCount (attemptStep ctx o r k).2.2 ∧
    resetCount (attemptStep ctx o r k).2.2 = transportErrorCount (attemptStep ctx o r k).2.2 ∧
    visitedProviders (attemptStep ctx o r k).2.2 = [] := by
  cases o <;>
    simp [attemptStep, attemptCount, resetCount, transportErrorCount, visitedProviders,
      isAttempt, isReset, isTransportErrorAttempt, List.countP_cons, List.countP_nil]

theorem attemptStep_ctx (ctx : AttemptCtx) (o : Option Response)
    (r : Option Response) (k : Nat) :
    ∀ ctx' out, Event.attempt ctx' out ∈ (attemptStep ctx o r k).2.2 →
      ctx' = ctx ∧ out = o := by
  cases o <;> simp [attemptStep]

/-- Everything the claims need to know about one run of the inner provider
loop, as a relation between entry data and the loop's result. -/
def PLoopOut (cfg : Config) (provider : ProxyProvider) (pr : Nat) (st : SessState)
    (res : InnerResult) : Prop :=
  res.st.retries = st.retries + attemptCount res.trace ∧
  res.provider_retries = pr + attemptCount res.trace ∧
  res.st.resets = st.resets + resetCount res.trace ∧
  resetCount res.trace = transportErrorCount res.trace ∧
  1 ≤ attemptCount res.trace ∧
  attemptCount res.trace ≤ max 1 (provider.max_retries - pr) ∧
  visitedProviders res.trace = [] ∧
  res.st.retries ≤ max (st.retries + 1) cfg.max_retries ∧
  (res.exit = InnerExit.advance → res.st.retries < cfg.max_retries)

theorem providerLoop_spec (cfg : Config) (send : Nat → Option Response)
    (provider : ProxyProvider) (pr : Nat) (r : Option Response) (st : SessState) :
    PLoopOut cfg provider pr st (providerLoop cfg send provider pr r st) := by
  induction pr, r, st using providerLoop.induct cfg send provider with
  | case1 pr r st step r' resets' success lsp' st' hret =>
    obtain ⟨ha, hb, hc, hd⟩ :=
      attemptStep_spec (AttemptCtx.withProvider provider) (send st.retries) r st.resets
    rw [providerLoop.eq_def]
    simp only []
    rw [if_pos hret]
    simp only [PLoopOut]
    refine ⟨?_, ?_, ?_, ?_, ?_, ?_, ?_, ?_, ?_⟩ <;> simp_all <;> omega
  | case2 pr r st step r' resets' provider_retries' success lsp' st' hret hadv =>
    obtain ⟨ha, hb, hc, hd⟩ :=
      attemptStep_spec (AttemptCtx.withProvider provider) (send st.retries) r st.resets
    have hlt : st.retries + 1 < cfg.max_retries := by
      by_contra hcon
      exact hret (Or.inr (Or.inl (Nat.le_of_not_lt hcon)))
    rw [providerLoop.eq_def]
    simp only []
    rw [if_neg hret, dif_pos hadv]
    simp only [PLoopOut]
    refine ⟨?_, ?_, ?_, ?_, ?_, ?_, ?_, ?_, ?_⟩ <;> simp_all <;> omega
  | case3 pr r st step r' resets' provider_retries' success lsp' st' hret hadv ih =>
    obtain ⟨ha, hb, hc, hd⟩ :=
      attemptStep_spec (AttemptCtx.withProvider provider) (send st.retries) r st.resets
    have hlt : st.retries + 1 < cfg.max_retries := by
      by_contra hcon
      exact hret (Or.inr (Or.inl (Nat.le_of_not_lt hcon)))
    have hbud : pr + 1 < provider.max_retries := Nat.lt_of_not_le hadv
    unfold st' lsp' success provider_retries' resets' r' step at ih
    rw [providerLoop.eq_def]
    simp only []
    rw [if_neg hret, dif_neg hadv]
    obtain ⟨i1, i2, i3, i4, i5, i6, i7, i8, i9⟩ := ih
    simp only [PLoopOut] at *
    refine ⟨?_, ?_, ?_, ?_, ?_, ?_, ?_, ?_, ?_⟩ <;>
      simp_all [attemptCount_append, resetCount_append, transportErrorCount_append,
        visitedProviders_append, attemptCount_acquire, resetCount_acquire,
        transportErrorCount_acquire, visitedProviders_acquire,
        apply_ite attemptCount, apply_ite resetCount, apply_ite transportErrorCount,
        apply_ite visitedProviders] <;> omega

theorem providerLoop_tags (cfg : Config) (send : Nat → Option Response)
    (provider : ProxyProvider) (pr : Nat) (r : Option Response) (st : SessState) :
    ∀ ctx out, Event.attempt ctx out ∈ (providerLoop cfg send provider pr r st).trace →
      ctx = AttemptCtx.withProvider provider := by
  induction pr, r, st using providerLoop.induct cfg send provider with
  | case1 pr r st step r' resets' success lsp' st' hret =>
    intro ctx out hmem
    rw [providerLoop.eq_def] at hmem
    simp only [] at hmem
    rw [if_pos hret] at hmem
    exact ((attemptStep_ctx _ _ _ _ ctx out) (by simpa using hmem)).1
  | case2 pr r st step r' resets' provider_retries' success lsp' st' hret hadv =>
    intro ctx out hmem
    rw [providerLoop.eq_def] at hmem
    simp only [] at hmem
    rw [if_neg hret, dif_pos hadv] at hmem
    exact ((attemptStep_ctx _ _ _ _ ctx out) (by simpa using hmem)).1
  | case3 pr r st step r' resets' provider_retries' success lsp' st' hret hadv ih =>
    intro ctx out hmem
    unfold st' lsp' success provider_retries' resets' r' step at ih
    rw [providerLoop.eq_def] at hmem
    simp only [] at hmem
    rw [if_neg hret, dif_neg hadv] at hmem
    simp only [List.mem_append] at hmem
    rcases hmem with hmem | hmem
    · split at hmem
      · rcases List.mem_append.mp hmem with hm | hm
        · exact ((attemptStep_ctx _ _ _ _ ctx out) hm).1
        · simp at hm
      · exact ((attemptStep_ctx _ _ _ _ ctx out) hmem).1
    · exact ih ctx out hmem

/-- No attempt outcome satisfies the success predicate. -/
def NoSuccess (cfg : Config) (send : Nat → Option Response) : Prop :=
  ∀ n resp, send n = some resp → cfg.is_successful_response resp = false

/-- The threaded stale `r` is absent or holds an unsuccessful response. -/
def ROk (cfg : Config) (r : Option Response) : Prop :=
  ∀ resp, r = some resp → cfg.is_successful_response resp = false

theorem attemptStep_rok (cfg : Config) (send : Nat → Option Response) (ctx : AttemptCtx)
    (n : Nat) (r : Option Response) (k : Nat)
    (hns : NoSuccess cfg send) (hrok : ROk cfg r) :
    ROk cfg (attemptStep ctx (send n) r k).1 := by
  intro resp hresp
  cases hsend : send n with
  | none =>
    rw [hsend] at hresp
    exact hrok resp (by simpa [attemptStep] using hresp)
  | some resp2 =>
    rw [hsend] at hresp
    simp only [attemptStep, Option.some.injEq] at hresp
    exact hresp ▸ hns n resp2 hsend

theorem attemptStep_success_false (cfg : Config) (send : Nat → Option Response)
    (ctx : AttemptCtx) (n : Nat) (r : Option Response) (k : Nat)
    (hns : NoSuccess cfg send) (hrok : ROk cfg r) :
    successOf cfg (attemptStep ctx (send n) r k).1 = false := by
  have h := attemptStep_rok cfg send ctx n r k hns hrok
  cases hval : (attemptStep ctx (send n) r k).1 with
  | none => simp [successOf]
  | some resp => simpa [successOf] using h resp hval

theorem providerLoop_exhaust (cfg : Config) (send : Nat → Option Response)
    (provider : ProxyProvider) (pr : Nat) (r : Option Response) (st : SessState)
    (hre : cfg.retry_on_failure = true) (hns : NoSuccess cfg send)
    (hrok : ROk cfg r)
    (hlt : st.retries + max 1 (provider.max_retries - pr) < cfg.max_retries) :
    (providerLoop cfg send provider pr r st).exit = InnerExit.advance ∧
    (providerLoop cfg send provider pr r st).st.retries
      = st.retries + max 1 (provider.max_retries - pr) ∧
    ROk cfg (providerLoop cfg send provider pr r st).r := by
  induction pr, r, st using providerLoop.induct cfg send provider with
  | case1 pr r st step r' resets' success lsp' st' hret =>
    exfalso
    have hsucc : successOf cfg (attemptStep (AttemptCtx.withProvider provider)
        (send st.retries) r st.resets).1 = false :=
      attemptStep_success_false cfg send _ st.retries r st.resets hns hrok
    unfold st' lsp' success r' step at hret
    dsimp only at hret
    rcases hret with h | h | h
    · simp [hre] at h
    · omega
    · simp [hsucc] at h
  | case2 pr r st step r' resets' provider_retries' success lsp' st' hret hadv =>
    have hrok' : ROk cfg (attemptStep (AttemptCtx.withProvider provider)
        (send st.retries) r st.resets).1 :=
      attemptStep_rok cfg send _ st.retries r st.resets hns hrok
    have hone : max 1 (provider.max_retries - pr) = 1 := by
      have h1 : provider.max_retries ≤ pr + 1 := hadv
      omega
    rw [providerLoop.eq_def]
    simp only []
    rw [if_neg hret, dif_pos hadv]
    dsimp only
    exact ⟨rfl, by rw [hone], hrok'⟩
  | case3 pr r st step r' resets' provider_retries' success lsp' st' hret hadv ih =>
    have hbud : pr + 1 < provider.max_retries := Nat.lt_of_not_le hadv
    have hrok' : ROk cfg (attemptStep (AttemptCtx.withProvider provider)
        (send st.retries) r st.resets).1 :=
      attemptStep_rok cfg send _ st.retries r st.resets hns hrok
    unfold st' lsp' success provider_retries' resets' r' step at ih
    simp only [dite_eq_ite] at ih
    have ihres := ih hrok' (by omega)
    obtain ⟨e1, e2, e3⟩ := ihres
    rw [providerLoop.eq_def]
    simp only []
    rw [if_neg hret, dif_neg hadv]
    dsimp only
    refine ⟨e1, ?_, e3⟩
    rw [e2]
    omega

@[simp] theorem attemptCount_cons_tryProvider (p : ProxyProvider) (tr : List Event) :
    attemptCount (Event.tryProvider p :: tr) = attemptCount tr := by
  simp [attemptCount, List.countP_cons, isAttempt]

@[simp] theorem attemptCount_cons_acquire (p : ProxyProvider) (tr : List Event) :
    attemptCount (Event.acquire p :: tr) = attemptCount tr := by
  simp [attemptCount, List.countP_cons, isAttempt]

@[simp] theorem resetCount_cons_tryProvider (p : ProxyProvider) (tr : List Event) :
    resetCount (Event.tryProvider p :: tr) = resetCount tr := by
  simp [resetCount, List.countP_cons, isReset]

@[simp] theorem resetCount_cons_acquire (p : ProxyProvider) (tr : List Event) :
    resetCount (Event.acquire p :: tr) = resetCount tr := by
  simp [resetCount, List.countP_cons, isReset]

@[simp] theorem transportErrorCount_cons_tryProvider (p : ProxyProvider) (tr : List Event) :
    transportErrorCount (Event.tryProvider p :: tr) = transportErrorCount tr := by
  simp [transportErrorCount, List.countP_cons, isTransportErrorAttempt]

@[simp] theorem transportErrorCount_cons_acquire (p : ProxyProvider) (tr : List Event) :
    transportErrorCount (Event.acquire p :: tr) = transportErrorCount tr := by
  simp [transportErrorCount, List.countP_cons, isTransportErrorAttempt]

@[simp] theorem visitedProviders_cons_tryProvider (p : ProxyProvider) (tr : List Event) :
    visitedProviders (Event.tryProvider p :: tr) = p :: visitedProviders tr := by
  simp [visitedProviders]

@[simp] theorem visitedProviders_cons_acquire (p : ProxyProvider) (tr : List Event) :
    visitedProviders (Event.acquire p :: tr) = visitedProviders tr := by
  simp [visitedProviders]

theorem providersFor_spec (cfg : Config) (send : Nat → Option Response) :
    ∀ (l : List ProxyProvider) (r : Option Response) (st : SessState),
    (providersFor cfg send l r st).2.1.retries
      = st.retries + attemptCount (providersFor cfg send l r st).2.2 ∧
    (providersFor cfg send l r st).2.1.resets
      = st.resets + resetCount (providersFor cfg send l r st).2.2 ∧
    resetCount (providersFor cfg send l r st).2.2
      = transportErrorCount (providersFor cfg send l r st).2.2 ∧
    (providersFor cfg send l r st).2.1.retries ≤ max (st.retries + 1) cfg.max_retries ∧
    visitedProviders (providersFor cfg send l r st).2.2 <+: l := by
  intro l
  induction l with
  | nil =>
    intro r st
    refine ⟨?_, ?_, ?_, ?_, ?_⟩ <;>
      simp [providersFor, attemptCount, resetCount, transportErrorCount, visitedProviders,
        List.countP_nil] <;> omega
  | cons p ps ih =>
    intro r st
    obtain ⟨s1, s2, s3, s4, s5, s6, s7, s8, s9⟩ := providerLoop_spec cfg send p 0 r st
    simp only [providersFor]
    cases hexit : (providerLoop cfg send p 0 r st).exit with
    | returned =>
      simp only [hexit]
      refine ⟨?_, ?_, ?_, ?_, ?_⟩
      · simpa using s1
      · simpa using s3
      · simpa using s4
      · simpa using s8
      · simp only [visitedProviders_cons_tryProvider, visitedProviders_cons_acquire, s7]
        exact ⟨ps, rfl⟩
    | advance =>
      obtain ⟨i1, i2, i3, i4, i5⟩ := ih (providerLoop cfg send p 0 r st).r
        (providerLoop cfg send p 0 r st).st
      have hlt := s9 hexit
      simp only [hexit]
      refine ⟨?_, ?_, ?_, ?_, ?_⟩
      · dsimp only
        simp only [attemptCount_cons_tryProvider, attemptCount_cons_acquire, attemptCount_append]
        omega
      · dsimp only
        simp only [resetCount_cons_tryProvider, resetCount_cons_acquire, resetCount_append]
        omega
      · dsimp only
        simp only [resetCount_cons_tryProvider, resetCount_cons_acquire,
          transportErrorCount_cons_tryProvider, transportErrorCount_cons_acquire,
          resetCount_append, transportErrorCount_append]
        omega
      · dsimp only
        omega
      · dsimp only
        simp only [visitedProviders_cons_tryProvider, visitedProviders_cons_acquire,
          visitedProviders_append, s7, List.nil_append]
        exact List.cons_prefix_cons.mpr ⟨rfl, i5⟩

theorem providersFor_exhaust (cfg : Config) (send : Nat → Option Response)
    (hre : cfg.retry_on_failure = true) (hns : NoSuccess cfg send) :
    ∀ (l : List ProxyProvider) (r : Option Response) (st : SessState),
    ROk cfg r →
    st.retries + providerExhaustionBudget l < cfg.max_retries →
    (providersFor cfg send l r st).1 = none ∧
    (providersFor cfg send l r st).2.1.retries = st.retries + providerExhaustionBudget l := by
  intro l
  induction l with
  | nil =>
    intro r st hrok hlt
    exact ⟨rfl, by simp [providersFor, providerExhaustionBudget]⟩
  | cons p ps ih =>
    intro r st hrok hlt
    have hbudget : providerExhaustionBudget (p :: ps)
        = max 1 p.max_retries + providerExhaustionBudget ps := by
      simp [providerExhaustionBudget]
    have hplt : st.retries + max 1 (p.max_retries - 0) < cfg.max_retries := by
      simp only [Nat.sub_zero]
      omega
    obtain ⟨e1, e2, e3⟩ := providerLoop_exhaust cfg send p 0 r st hre hns hrok hplt
    simp only [providersFor, e1]
    have ihres := ih (providerLoop cfg send p 0 r st).r (providerLoop cfg send p 0 r st).st
      e3 (by rw [e2]; simp only [Nat.sub_zero]; omega)
    refine ⟨ihres.1, ?_⟩
    have h2 := ihres.2
    omega

theorem noProviderLoop_spec (cfg : Config) (send : Nat → Option Response) :
    ∀ (r : Option Response) (st : SessState),
    (noProviderLoop cfg send r st).2.1.retries
      = st.retries + attemptCount (noProviderLoop cfg send r st).2.2 ∧
    (noProviderLoop cfg send r st).2.1.resets
      = st.resets + resetCount (noProviderLoop cfg send r st).2.2 ∧
    resetCount (noProviderLoop cfg send r st).2.2
      = transportErrorCount (noProviderLoop cfg send r st).2.2 ∧
    (noProviderLoop cfg send r st).2.1.retries ≤ max st.retries cfg.max_retries ∧
    (noProviderLoop cfg send r st).2.1.last_successful_provider
      = st.last_successful_provider := by
  intro r st
  induction r, st using noProviderLoop.induct cfg send with
  | case1 r st hin step r' hcond =>
    obtain ⟨ha, hb, hc, hd⟩ := attemptStep_spec AttemptCtx.noProxy (send st.retries) r st.resets
    rw [noProviderLoop.eq_def]
    simp only []
    rw [dif_pos hin, if_pos hcond]
    refine ⟨?_, ?_, ?_, ?_, ?_⟩ <;> simp_all <;> omega
  | case2 r st hin step r' st' hcond ih =>
    obtain ⟨ha, hb, hc, hd⟩ := attemptStep_spec AttemptCtx.noProxy (send st.retries) r st.resets
    unfold st' r' step at ih
    rw [noProviderLoop.eq_def]
    simp only []
    rw [dif_pos hin, if_neg hcond]
    obtain ⟨i1, i2, i3, i4, i5⟩ := ih
    refine ⟨?_, ?_, ?_, ?_, ?_⟩ <;>
      simp_all [attemptCount_append, resetCount_append, transportErrorCount_append] <;> omega
  | case3 r st hin =>
    rw [noProviderLoop.eq_def]
    simp only []
    rw [dif_neg hin]
    refine ⟨?_, ?_, ?_, ?_, ?_⟩ <;>
      simp [attemptCount, resetCount, transportErrorCount, List.countP_nil] <;> omega

/-! ## Sorting lemmas -/

theorem insertByStrength_perm (p : ProxyProvider) (l : List ProxyProvider) :
    (insertByStrength p l).Perm (p :: l) := by
  induction l with
  | nil => simp [insertByStrength]
  | cons q qs ih =>
    simp only [insertByStrength]
    split
    · exact List.Perm.refl _
    · exact (ih.cons q).trans (List.Perm.swap p q qs)

theorem insertByStrength_ne_nil (p : ProxyProvider) (l : List ProxyProvider) :
    insertByStrength p l ≠ [] := by
  cases l with
  | nil => simp [insertByStrength]
  | cons q qs =>
    simp only [insertByStrength]
    split <;> simp

theorem sortedProviders_perm (l : List ProxyProvider) :
    (sortedProviders l).Perm l := by
  induction l with
  | nil => simp [sortedProviders]
  | cons p ps ih =>
    simpa [sortedProviders] using (insertByStrength_perm p (sortedProviders ps)).trans (ih.cons p)

theorem sortedProviders_ne_nil (l : List ProxyProvider) (h : l ≠ []) :
    sortedProviders l ≠ [] := by
  cases l with
  | nil => exact absurd rfl h
  | cons p ps => simpa [sortedProviders] using insertByStrength_ne_nil p (sortedProviders ps)

theorem providerExhaustionBudget_sorted (l : List ProxyProvider) :
    providerExhaustionBudget (sortedProviders l) = providerExhaustionBudget l := by
  unfold providerExhaustionBudget
  exact List.Perm.sum_eq ((sortedProviders_perm l).map _)

theorem insertByStrength_pairwise (p : ProxyProvider) (l : List ProxyProvider)
    (h : l.Pairwise (fun a b => b.strength ≤ a.strength)) :
    (insertByStrength p l).Pairwise (fun a b => b.strength ≤ a.strength) := by
  induction l with
  | nil => simp [insertByStrength]
  | cons q qs ih =>
    rcases List.pairwise_cons.mp h with ⟨hq, hqs⟩
    simp only [insertByStrength]
    split
    · rename_i h1
      refine List.pairwise_cons.mpr ⟨?_, h⟩
      intro x hx
      rcases List.mem_cons.mp hx with rfl | hx
      · exact h1
      · exact le_trans (hq x hx) h1
    · rename_i h1
      refine List.pairwise_cons.mpr ⟨?_, ih hqs⟩
      intro x hx
      rcases List.mem_cons.mp ((insertByStrength_perm p qs).mem_iff.mp hx) with rfl | hx
      · exact le_of_not_le h1
      · exact hq x hx

theorem sortedProviders_pairwise (l : List ProxyProvider) :
    (sortedProviders l).Pairwise (fun a b => b.strength ≤ a.strength) := by
  induction l with
  | nil => simp [sortedProviders]
  | cons p ps ih => exact insertByStrength_pairwise p (sortedProviders ps) ih

theorem insertByStrength_filter (p : ProxyProvider) (l : List ProxyProvider) (q : Rat) :
    (insertByStrength p l).filter (fun x => decide (x.strength = q))
      = if p.strength = q then
          p :: l.filter (fun x => decide (x.strength = q))
        else l.filter (fun x => decide (x.strength = q)) := by
  induction l with
  | nil =>
    by_cases hpq : p.strength = q <;> simp [insertByStrength, List.filter_cons, hpq]
  | cons y ys ih =>
    simp only [insertByStrength]
    split
    · rename_i h1
      by_cases hpq : p.strength = q <;> simp [List.filter_cons, hpq]
    · rename_i h1
      have hlt : p.strength < y.strength := not_le.mp h1
      rw [List.filter_cons, ih]
      by_cases hpq : p.strength = q
      · have hy : ¬(y.strength = q) := by
          rw [← hpq]
          exact ne_of_gt hlt
        simp [hpq, hy, List.filter_cons]
      · simp [hpq, List.filter_cons]

theorem sortedProviders_filter (l : List ProxyProvider) (q : Rat) :
    (sortedProviders l).filter (fun x => decide (x.strength = q))
      = l.filter (fun x => decide (x.strength = q)) := by
  induction l with
  | nil => simp [sortedProviders]
  | cons p ps ih =>
    simp only [sortedProviders]
    rw [insertByStrength_filter, ih, List.filter_cons]
    by_cases hpq : p.strength = q <;> simp [hpq]

/-! ## Request-level lemmas -/

theorem providerLoop_retry_off (cfg : Config) (send : Nat → Option Response)
    (provider : ProxyProvider) (pr : Nat) (r : Option Response) (st : SessState)
    (hroff : cfg.retry_on_failure = false) :
    (providerLoop cfg send provider pr r st).exit = InnerExit.returned ∧
    attemptCount (providerLoop cfg send provider pr r st).trace = 1 := by
  obtain ⟨ha, hb, hc, hd⟩ :=
    attemptStep_spec (AttemptCtx.withProvider provider) (send st.retries) r st.resets
  rw [providerLoop.eq_def]
  simp only []
  rw [if_pos (Or.inl hroff)]
  exact ⟨rfl, ha⟩

theorem providersFor_retry_off (cfg : Config) (send : Nat → Option Response)
    (p : ProxyProvider) (ps : List ProxyProvider) (r : Option Response) (st : SessState)
    (hroff : cfg.retry_on_failure = false) :
    attemptCount (providersFor cfg send (p :: ps) r st).2.2 = 1 := by
  obtain ⟨e1, e2⟩ := providerLoop_retry_off cfg send p 0 r st hroff
  simp only [providersFor, e1]
  simpa using e2

theorem request_with_providers_retry_off (cfg : Config) (send : Nat → Option Response)
    (provs : List ProxyProvider) (st : SessState)
    (hroff : cfg.retry_on_failure = false) (hne : provs ≠ []) :
    attemptCount (request_with_providers cfg send provs st).2.2 = 1 := by
  unfold request_with_providers
  cases hsort : sortedProviders provs with
  | nil => exact absurd hsort (sortedProviders_ne_nil provs hne)
  | cons p ps => exact providersFor_retry_off cfg send p ps none st hroff

theorem requestBody_spec (cfg : Config) (send : Nat → Option Response)
    (provs : List ProxyProvider) (lsp0 : Option ProxyProvider) (resets0 : Nat) :
    (requestBody cfg send provs lsp0 resets0).st.retries
      = attemptCount (requestBody cfg send provs lsp0 resets0).trace ∧
    (requestBody cfg send provs lsp0 resets0).st.resets
      = resets0 + resetCount (requestBody cfg send provs lsp0 resets0).trace ∧
    resetCount (requestBody cfg send provs lsp0 resets0).trace
      = transportErrorCount (requestBody cfg send provs lsp0 resets0).trace ∧
    (requestBody cfg send provs lsp0 resets0).st.retries
      ≤ max cfg.max_retries
          (if lsp0.isSome = true ∧ cfg.sticky_proxies = true then 2 else 1) := by
  obtain ⟨a0, b0, c0, d0⟩ := attemptStep_spec AttemptCtx.stickyReuse (send 0) none resets0
  simp only [requestBody]
  split
  · rename_i hsticky
    split
    · rename_i hsucc
      refine ⟨?_, ?_, ?_, ?_⟩ <;> simp_all <;> omega
    · rename_i hsucc
      split
      · rename_i hprovs
        obtain ⟨w1, w2, w3, w4, w5⟩ := providersFor_spec cfg send (sortedProviders provs) none
          { retries := 1, last_successful_provider := none,
            resets := (attemptStep AttemptCtx.stickyReuse (send 0) none resets0).2.1 }
        refine ⟨?_, ?_, ?_, ?_⟩ <;>
          simp_all [request_with_providers, attemptCount_append, resetCount_append,
            transportErrorCount_append] <;> omega
      · rename_i hprovs
        obtain ⟨w1, w2, w3, w4, w5⟩ := noProviderLoop_spec cfg send
          (attemptStep AttemptCtx.stickyReuse (send 0) none resets0).1
          { retries := 1, last_successful_provider := none,
            resets := (attemptStep AttemptCtx.stickyReuse (send 0) none resets0).2.1 }
        refine ⟨?_, ?_, ?_, ?_⟩ <;>
          simp_all [attemptCount_append, resetCount_append,
            transportErrorCount_append] <;> omega
  · rename_i hsticky
    split
    · rename_i hprovs
      obtain ⟨w1, w2, w3, w4, w5⟩ := providersFor_spec cfg send (sortedProviders provs) none
        { retries := 0, last_successful_provider := lsp0, resets := resets0 }
      refine ⟨?_, ?_, ?_, ?_⟩ <;>
        simp_all [request_with_providers, attemptCount_append, resetCount_append,
          transportErrorCount_append] <;> omega
    · rename_i hprovs
      obtain ⟨w1, w2, w3, w4, w5⟩ := noProviderLoop_spec cfg send none
        { retries := 0, last_successful_provider := lsp0, resets := resets0 }
      refine ⟨?_, ?_, ?_, ?_⟩ <;>
        simp_all [attemptCount_append, resetCount_append,
          transportErrorCount_append] <;> omega

theorem attemptStep_fst_none (ctx : AttemptCtx) (o : Option Response) (k : Nat) :
    (attemptStep ctx o none k).1 = o := by
  cases o <;> rfl

theorem requestBody_retry_off (cfg : Config) (send : Nat → Option Response)
    (provs : List ProxyProvider) (lsp0 : Option ProxyProvider) (resets0 : Nat)
    (hroff : cfg.retry_on_failure = false) (hne : provs ≠ []) :
    attemptCount (requestBody cfg send provs lsp0 resets0).trace
      = if lsp0.isSome = true ∧ cfg.sticky_proxies = true then
          (if successfulAndTruthy cfg (send 0) = true then 1 else 2)
        else 1 := by
  obtain ⟨a0, b0, c0, d0⟩ := attemptStep_spec AttemptCtx.stickyReuse (send 0) none resets0
  have hr1 : (attemptStep AttemptCtx.stickyReuse (send 0) none resets0).1 = send 0 :=
    attemptStep_fst_none _ _ _
  by_cases hsticky : lsp0.isSome = true ∧ cfg.sticky_proxies = true
  · by_cases hsucc :
        successfulAndTruthy cfg (attemptStep AttemptCtx.stickyReuse (send 0) none resets0).1
          = true
    · simp only [requestBody]
      rw [if_pos hsticky, if_pos hsucc, if_pos hsticky, if_pos (hr1 ▸ hsucc)]
      exact a0
    · simp only [requestBody]
      rw [if_pos hsticky, if_neg hsucc, if_pos hne, if_pos hsticky,
        if_neg (by rw [← hr1]; exact hsucc)]
      rw [attemptCount_append, a0, request_with_providers_retry_off cfg send provs _ hroff hne]
  · simp only [requestBody]
    rw [if_neg hsticky, if_pos hne, if_neg hsticky]
    exact request_with_providers_retry_off cfg send provs _ hroff hne

theorem requestBody_sticky_structure (cfg : Config) (send : Nat → Option Response)
    (provs : List ProxyProvider) (p : ProxyProvider) (resets0 : Nat)
    (hs : cfg.sticky_proxies = true) (hne : provs ≠ []) :
    (∃ tl, (requestBody cfg send provs (some p) resets0).trace
      = Event.attempt AttemptCtx.stickyReuse (send 0) :: tl) ∧
    (successfulAndTruthy cfg (send 0) = true →
      (requestBody cfg send provs (some p) resets0).r = send 0 ∧
      attemptCount (requestBody cfg send provs (some p) resets0).trace = 1) ∧
    (successfulAndTruthy cfg (send 0) = false →
      (requestBody cfg send provs (some p) resets0).r
        = (request_with_providers cfg send provs
            { retries := 1, last_successful_provider := none,
              resets := (attemptStep AttemptCtx.stickyReuse (send 0) none resets0).2.1 }).1 ∧
      (requestBody cfg send provs (some p) resets0).trace
        = (attemptStep AttemptCtx.stickyReuse (send 0) none resets0).2.2
          ++ (request_with_providers cfg send provs
            { retries := 1, last_successful_provider := none,
              resets := (attemptStep AttemptCtx.stickyReuse (send 0) none resets0).2.1 }).2.2) := by
  obtain ⟨a0, b0, c0, d0⟩ := attemptStep_spec AttemptCtx.stickyReuse (send 0) none resets0
  have hr1 : (attemptStep AttemptCtx.stickyReuse (send 0) none resets0).1 = send 0 :=
    attemptStep_fst_none _ _ _
  have hsticky : (some p : Option ProxyProvider).isSome = true ∧ cfg.sticky_proxies = true :=
    ⟨rfl, hs⟩
  refine ⟨?_, ?_, ?_⟩
  · by_cases hsucc :
        successfulAndTruthy cfg (attemptStep AttemptCtx.stickyReuse (send 0) none resets0).1
          = true
    · simp only [requestBody]
      rw [if_pos hsticky, if_pos hsucc]
      cases hsend : send 0 <;> exact ⟨_, rfl⟩
    · simp only [requestBody]
      rw [if_pos hsticky, if_neg hsucc, if_pos hne]
      cases hsend : send 0 <;> exact ⟨_, rfl⟩
  · intro hsucc
    simp only [requestBody]
    rw [if_pos hsticky, if_pos (by rw [hr1]; exact hsucc)]
    exact ⟨hr1, a0⟩
  · intro hsucc
    simp only [requestBody]
    rw [if_pos hsticky, if_neg (by rw [hr1]; exact (Bool.not_eq_true _).mpr hsucc),
      if_pos hne]
    exact ⟨rfl, rfl⟩

/-! ## Nordvpn pool lemmas -/

theorem get_best_server_domains_no_refresh (shuffle : List String → List String)
    (now : Int) (fetch : FetchOutcome) (min_load max_load : Int) (st : NordState)
    (hne : st.proxy_domains ≠ []) (hfresh : now - st.updated_at ≤ NORD_TTL) :
    get_best_server_domains shuffle now fetch min_load max_load st
      = { st := st, raised := false } := by
  unfold get_best_server_domains
  rw [if_neg (not_or.mpr ⟨hne, not_lt.mpr hfresh⟩)]

theorem nord_get_new_proxy_no_refresh (shuffle : List String → List String)
    (now : Int) (fetch : FetchOutcome) (user password : String) (st : NordState)
    (hne : st.proxy_domains ≠ []) (hidx : st.index < st.proxy_domains.length)
    (hfresh : now - st.updated_at ≤ NORD_TTL) :
    nord_get_new_proxy shuffle now fetch user password st
      = { proxy_url := some (nordProxyUrl user password (st.proxy_domains.getD st.index "")),
          st := { st with index := (st.index + 1) % st.proxy_domains.length } } := by
  unfold nord_get_new_proxy
  rw [get_best_server_domains_no_refresh shuffle now fetch 1 60 st hne hfresh]
  simp only []
  rw [if_neg (by simp), dif_pos hidx]
  rw [List.getD_eq_getElem st.proxy_domains "" hidx]
  rfl

theorem nordCalls_no_refresh (shuffle : List String → List String) (nows : Nat → Int)
    (fetches : Nat → FetchOutcome) (user password : String) :
    ∀ (k i : Nat) (st : NordState),
    st.proxy_domains ≠ [] →
    st.index < st.proxy_domains.length →
    (∀ j, j < k → nows (i + j) - st.updated_at ≤ NORD_TTL) →
    (nordCalls shuffle nows fetches user password i k st).2
      = { st with index := (st.index + k) % st.proxy_domains.length } ∧
    ∀ j, j < k →
      (nordCalls shuffle nows fetches user password i k st).1.get? j
        = some (some (nordProxyUrl user password
            (st.proxy_domains.getD ((st.index + j) % st.proxy_domains.length) ""))) := by
  intro k
  induction k with
  | zero =>
    intro i st hne hidx hfresh
    refine ⟨?_, by omega⟩
    have : st.index % st.proxy_domains.length = st.index := Nat.mod_eq_of_lt hidx
    simp [nordCalls, Nat.add_zero, this]
  | succ k ih =>
    intro i st hne hidx hfresh
    have hlen : 0 < st.proxy_domains.length := List.length_pos.mpr hne
    have hf0 : nows i - st.updated_at ≤ NORD_TTL := by
      have h := hfresh 0 (by omega)
      simpa using h
    have hcall := nord_get_new_proxy_no_refresh shuffle (nows i) (fetches i) user password st
      hne hidx hf0
    have hidx' : (st.index + 1) % st.proxy_domains.length < st.proxy_domains.length :=
      Nat.mod_lt _ hlen
    have hfresh' : ∀ j, j < k → nows (i + 1 + j) - st.updated_at ≤ NORD_TTL := by
      intro j hj
      have h := hfresh (1 + j) (by omega)
      have harg : i + (1 + j) = i + 1 + j := by omega
      rwa [harg] at h
    obtain ⟨e1, e2⟩ := ih (i + 1)
      { st with index := (st.index + 1) % st.proxy_domains.length }
      hne hidx' hfresh'
    simp only [nordCalls, hcall]
    constructor
    · rw [e1]
      simp only [NordState.mk.injEq]
      refine ⟨trivial, trivial, ?_⟩
      rw [Nat.mod_add_mod]
      congr 1
      omega
    · intro j hj
      cases j with
      | zero =>
        simp only [List.get?]
        rw [Nat.add_zero, Nat.mod_eq_of_lt hidx]
      | succ j =>
        simp only [List.get?]
        rw [e2 j (by omega)]
        have hmod : ((st.index + 1) % st.proxy_domains.length + j) % st.proxy_domains.length
            = (st.index + (j + 1)) % st.proxy_domains.length := by
          rw [Nat.mod_add_mod]
          congr 1
          omega
        rw [hmod]

/-! ## Concrete fixtures for counterexamples and witnesses -/

/-- The default `is_successful_response` lambda of `Session.__init__`:
status in `[200, 300)`. -/
def sessionDefaultSuccess : Response → Bool :=
  fun r => decide (200 ≤ r.status_code) && decide (r.status_code < 300)

/-- A provider with the Proxyrack-like strength `0.8` and a per-provider
budget of 2. -/
def provA : ProxyProvider :=
  { name := "providerA", strength := 4/5, max_retries := 2,
    paradigm := ProviderParadigm.DNS }

/-- A transport oracle that always delivers an HTTP 500 response. -/
def send500 : Nat → Option Response := fun _ => some { status_code := 500 }

/-- A transport oracle whose every attempt raises a caught transport error. -/
def sendNone : Nat → Option Response := fun _ => none

def cfgC1 : Config :=
  { sticky_proxies := false, retry_on_failure := true, max_retries := 10,
    is_successful_response := sessionDefaultSuccess }

def cfgC2 : Config :=
  { sticky_proxies := true, retry_on_failure := true, max_retries := 1,
    is_successful_response := sessionDefaultSuccess }

def cfgC5 : Config :=
  { sticky_proxies := true, retry_on_failure := false, max_retries := 3,
    is_successful_response := sessionDefaultSuccess }

def cfgC7 : Config :=
  { sticky_proxies := true, retry_on_failure := true, max_retries := 5,
    is_successful_response := sessionDefaultSuccess }

/-! ## Claim C1 -/

/-- C1, counterexample: with one provider of budget 2, retries enabled,
`max_retries = 10` and every attempt delivering an HTTP 500 response, the
provider is exhausted below the session ceiling and `request` returns
`None`, although two responses were obtained and no attempt raised a
transport error — contradicting "returns the last response obtained,
null only if every attempt raised a transport error". -/
theorem C1_counterexample :
    (requestBody cfgC1 send500 [provA] none 0).r = none ∧
    attemptCount (requestBody cfgC1 send500 [provA] none 0).trace = 2 ∧
    transportErrorCount (requestBody cfgC1 send500 [provA] none 0).trace = 0 := by
  refine ⟨?_, ?_, ?_⟩ <;>
    simp +decide [requestBody, request_with_providers, providersFor, providerLoop,
      sortedProviders, insertByStrength, cfgC1, provA, send500, sessionDefaultSuccess,
      attemptStep, successOf, attemptCount, transportErrorCount, isAttempt,
      isTransportErrorAttempt, List.countP_cons, List.countP_nil]

/-- C1, amended: when retries are enabled, no attempt succeeds, and the
session ceiling leaves room for every provider's full per-provider budget
(so exhaustion, not the ceiling, ends the loop), `request_with_providers`
falls off its provider loop and returns `None` — it discards the last
obtained response rather than returning it. -/
theorem C1_amended (cfg : Config) (send : Nat → Option Response)
    (provs : List ProxyProvider) (st : SessState)
    (hre : cfg.retry_on_failure = true) (hns : NoSuccess cfg send)
    (hlt : st.retries + providerExhaustionBudget provs < cfg.max_retries) :
    (request_with_providers cfg send provs st).1 = none := by
  unfold request_with_providers
  have h := providersFor_exhaust cfg send hre hns (sortedProviders provs) none st
    (fun resp h => Option.noConfusion h) (by rwa [providerExhaustionBudget_sorted])
  exact h.1

/-- C1, witness for the amended theorem at a concrete input. -/
theorem C1_witness :
    (request_with_providers cfgC1 send500 [provA]
      { retries := 0, last_successful_provider := none, resets := 0 }).1 = none :=
  C1_amended cfgC1 send500 [provA] _ rfl
    (fun n resp h => by
      simp only [send500, Option.some.injEq] at h
      rw [← h]
      decide)
    (by decide)

/-! ## Claim C2 -/

/-- C2, counterexample: with stickiness enabled, a remembered provider,
`max_retries = 1` and an unsuccessful reuse attempt, the session counter
reaches 2 > `max_retries` — the sticky-reuse attempt is counted but never
checked against the ceiling. -/
theorem C2_counterexample :
    (requestBody cfgC2 send500 [provA] (some provA) 0).st.retries = 2 ∧
    cfgC2.max_retries = 1 := by
  constructor
  · simp +decide [requestBody, request_with_providers, providersFor, providerLoop,
      sortedProviders, insertByStrength, cfgC2, provA, send500, sessionDefaultSuccess,
      attemptStep, successOf, successfulAndTruthy, Response.ok]
  · rfl

/-- C2, amended: at the end of every logical request the counter is at
most `max cfg.max_retries 2` when the sticky-reuse path ran and at most
`max cfg.max_retries 1` otherwise; it can exceed `max_retries` only via
the unchecked sticky-reuse attempt, or by the one attempt always made
when `max_retries = 0`. -/
theorem C2_amended (cfg : Config) (send : Nat → Option Response)
    (provs : List ProxyProvider) (lsp0 : Option ProxyProvider) (resets0 : Nat) :
    (requestBody cfg send provs lsp0 resets0).st.retries
      ≤ max cfg.max_retries
          (if lsp0.isSome = true ∧ cfg.sticky_proxies = true then 2 else 1) :=
  (requestBody_spec cfg send provs lsp0 resets0).2.2.2

/-! ## Claim C3 -/

/-- C3: in one activation of the inner provider loop (entered with
`provider_retries = 0`), when the provider's budget is at least 1 the
number of attempts recorded — all of them against this provider — never
exceeds `provider.max_retries`; the loop's only exits are `returned` and
`advance` to the next provider. -/
theorem C3_theorem (cfg : Config) (send : Nat → Option Response)
    (provider : ProxyProvider) (r : Option Response) (st : SessState)
    (hbud : 1 ≤ provider.max_retries) :
    attemptCount (providerLoop cfg send provider 0 r st).trace ≤ provider.max_retries ∧
    ∀ ctx out, Event.attempt ctx out ∈ (providerLoop cfg send provider 0 r st).trace →
      ctx = AttemptCtx.withProvider provider := by
  refine ⟨?_, providerLoop_tags cfg send provider 0 r st⟩
  obtain ⟨-, -, -, -, -, h6, -, -, -⟩ := providerLoop_spec cfg send provider 0 r st
  omega

/-- C3, witness at a concrete input. -/
theorem C3_witness :
    attemptCount (providerLoop cfgC1 send500 provA 0 none
      { retries := 0, last_successful_provider := none, resets := 0 }).trace
      ≤ provA.max_retries :=
  (C3_theorem cfgC1 send500 provA none _ (by decide)).1

/-! ## Claim C4 -/

theorem filter_prefix_mono {l₁ l₂ : List ProxyProvider} (f : ProxyProvider → Bool)
    (h : l₁ <+: l₂) : l₁.filter f <+: l₂.filter f := by
  obtain ⟨t, rfl⟩ := h
  exact ⟨t.filter f, (List.filter_append _ _).symm⟩

/-- C4: within one logical request the visited providers are in
non-increasing strength order, and for every strength value the visited
providers of that strength form a prefix of the configured providers of
that strength — equal strengths keep their original relative order
(Python's `sorted` is stable, and `reverse=True` preserves stability). -/
theorem C4_theorem (cfg : Config) (send : Nat → Option Response)
    (provs : List ProxyProvider) (st : SessState) :
    (visitedProviders (request_with_providers cfg send provs st).2.2).Pairwise
      (fun a b => b.strength ≤ a.strength) ∧
    ∀ q : Rat,
      (visitedProviders (request_with_providers cfg send provs st).2.2).filter
        (fun x => decide (x.strength = q))
      <+: provs.filter (fun x => decide (x.strength = q)) := by
  have hpre : visitedProviders (request_with_providers cfg send provs st).2.2
      <+: sortedProviders provs := by
    unfold request_with_providers
    obtain ⟨-, -, -, -, w5⟩ := providersFor_spec cfg send (sortedProviders provs) none st
    exact w5
  constructor
  · exact (sortedProviders_pairwise provs).sublist hpre.sublist
  · intro q
    have h1 := filter_prefix_mono (fun x => decide (x.strength = q)) hpre
    rwa [sortedProviders_filter] at h1

/-! ## Claim C5 -/

/-- C5, counterexample: retries disabled, stickiness on, remembered
provider present, reuse attempt unsuccessful — two attempts are made, not
one. -/
theorem C5_counterexample :
    attemptCount (requestBody cfgC5 send500 [provA] (some provA) 0).trace = 2 := by
  simp +decide [requestBody, request_with_providers, providersFor, providerLoop,
    sortedProviders, insertByStrength, cfgC5, provA, send500, sessionDefaultSuccess,
    attemptStep, successOf, successfulAndTruthy, Response.ok, attemptCount, isAttempt,
    List.countP_cons, List.countP_nil]

/-- C5, amended: with retries disabled and a non-empty provider list,
exactly one attempt is made unless the sticky-reuse path runs and the
reuse attempt fails, in which case exactly two attempts are made. -/
theorem C5_amended (cfg : Config) (send : Nat → Option Response)
    (provs : List ProxyProvider) (lsp0 : Option ProxyProvider) (resets0 : Nat)
    (hroff : cfg.retry_on_failure = false) (hne : provs ≠ []) :
    attemptCount (requestBody cfg send provs lsp0 resets0).trace
      = if lsp0.isSome = true ∧ cfg.sticky_proxies = true then
          (if successfulAndTruthy cfg (send 0) = true then 1 else 2)
        else 1 :=
  requestBody_retry_off cfg send provs lsp0 resets0 hroff hne

/-- C5, witness for the amended theorem at a concrete input. -/
theorem C5_witness :
    attemptCount (requestBody cfgC5 send500 [provA] (some provA) 0).trace
      = if (some provA : Option ProxyProvider).isSome = true
            ∧ cfgC5.sticky_proxies = true then
          (if successfulAndTruthy cfgC5 (send500 0) = true then 1 else 2)
        else 1 :=
  C5_amended cfgC5 send500 [provA] (some provA) 0 rfl (by simp)

/-! ## Claim C6 -/

/-- C6: a caught transport error never escapes the request: with a valid
configuration `request` returns a value, every adapter reset in the trace
corresponds to exactly one transport-error attempt (and the reset counter
advances by exactly the number of transport errors), every attempt —
transport errors included — counts against the session counter, and the
inner loop's `provider_retries` counts every attempt, transport errors
included, against the per-provider budget. -/
theorem C6_theorem (cfg : Config) (send : Nat → Option Response)
    (provs : List ProxyProvider) (lsp0 : Option ProxyProvider) (resets0 : Nat)
    (proxies_arg : Bool) :
    (¬(proxies_arg = true ∧ provs ≠ []) →
      request cfg send provs proxies_arg lsp0 resets0
        = Except.ok (requestBody cfg send provs lsp0 resets0)) ∧
    resetCount (requestBody cfg send provs lsp0 resets0).trace
      = transportErrorCount (requestBody cfg send provs lsp0 resets0).trace ∧
    (requestBody cfg send provs lsp0 resets0).st.resets
      = resets0 + resetCount (requestBody cfg send provs lsp0 resets0).trace ∧
    (requestBody cfg send provs lsp0 resets0).st.retries
      = attemptCount (requestBody cfg send provs lsp0 resets0).trace ∧
    ∀ (provider : ProxyProvider) (pr : Nat) (r : Option Response) (st : SessState),
      (providerLoop cfg send provider pr r st).provider_retries
        = pr + attemptCount (providerLoop cfg send provider pr r st).trace := by
  obtain ⟨q1, q2, q3, q4⟩ := requestBody_spec cfg send provs lsp0 resets0
  refine ⟨?_, q3, q2, q1, ?_⟩
  · intro h
    unfold request
    rw [if_neg h]
  · intro provider pr r st
    obtain ⟨-, s2, -, -, -, -, -, -, -⟩ := providerLoop_spec cfg send provider pr r st
    exact s2

/-- C6, witness at a concrete input whose every attempt raises a
transport error. -/
theorem C6_witness :
    request cfgC1 sendNone [provA] false none 0
      = Except.ok (requestBody cfgC1 sendNone [provA] none 0) :=
  (C6_theorem cfgC1 sendNone [provA] none 0 false).1 (by simp)

/-! ## Claim C7 -/

/-- C7: with stickiness on and a remembered provider, the request's first
event is the sticky-reuse attempt itself — no `get_proxy` call precedes
it; if the reuse attempt succeeds (per the code's truthiness-and-predicate
test) its response is returned after exactly one attempt, and if it fails
the request is answered by the full provider search, entered with
`last_successful_provider` cleared to `None`. -/
theorem C7_theorem (cfg : Config) (send : Nat → Option Response)
    (provs : List ProxyProvider) (p : ProxyProvider) (resets0 : Nat)
    (hs : cfg.sticky_proxies = true) (hne : provs ≠ []) :
    (∃ tl, (requestBody cfg send provs (some p) resets0).trace
      = Event.attempt AttemptCtx.stickyReuse (send 0) :: tl) ∧
    (successfulAndTruthy cfg (send 0) = true →
      (requestBody cfg send provs (some p) resets0).r = send 0 ∧
      attemptCount (requestBody cfg send provs (some p) resets0).trace = 1) ∧
    (successfulAndTruthy cfg (send 0) = false →
      (requestBody cfg send provs (some p) resets0).r
        = (request_with_providers cfg send provs
            { retries := 1, last_successful_provider := none,
              resets := (attemptStep AttemptCtx.stickyReuse (send 0) none resets0).2.1 }).1 ∧
      (requestBody cfg send provs (some p) resets0).trace
        = (attemptStep AttemptCtx.stickyReuse (send 0) none resets0).2.2
          ++ (request_with_providers cfg send provs
            { retries := 1, last_successful_provider := none,
              resets := (attemptStep AttemptCtx.stickyReuse (send 0) none resets0).2.1 }).2.2) :=
  requestBody_sticky_structure cfg send provs p resets0 hs hne

/-- C7, witness at a concrete input. -/
theorem C7_witness :
    ∃ tl, (requestBody cfgC7 send500 [provA] (some provA) 0).trace
      = Event.attempt AttemptCtx.stickyReuse (send500 0) :: tl :=
  (C7_theorem cfgC7 send500 [provA] provA 0 rfl (by simp)).1

/-! ## Claim C8 -/

/-- C8, counterexample: a successful fetch whose servers all fail the
filter leaves the pool empty (refuting "afterwards the pool is
non-empty"), and a transport failure during the fetch propagates as an
exception (refuting "does not raise" — only `JSONDecodeError` is caught). -/
theorem C8_counterexample :
    (get_best_server_domains id 100 (FetchOutcome.servers
        [{ hostname := "a", status := "offline", load := 10 }]) 1 60
        { proxy_domains := [], updated_at := 0, index := 0 }).st.proxy_domains = [] ∧
    (get_best_server_domains id 100 FetchOutcome.transportError 1 60
        { proxy_domains := [], updated_at := 0, index := 0 }).raised = true := by
  constructor <;> rfl

/-- C8, amended: only a malformed-JSON (parse) failure is recovered: then
the refresh does not raise, and whenever the refresh actually runs (pool
empty or TTL elapsed) the pool becomes the shuffled hardcoded fallback
list, which is non-empty as long as shuffling preserves non-emptiness. -/
theorem C8_amended (shuffle : List String → List String) (now : Int)
    (min_load max_load : Int) (st : NordState)
    (hsh : ∀ l : List String, l ≠ [] → shuffle l ≠ []) :
    (get_best_server_domains shuffle now FetchOutcome.malformed min_load max_load st).raised
      = false ∧
    ((st.proxy_domains = [] ∨ NORD_TTL < now - st.updated_at) →
      (get_best_server_domains shuffle now
          FetchOutcome.malformed min_load max_load st).st.proxy_domains
        = shuffle EXAMPLE_PROXY_URLS ∧
      (get_best_server_domains shuffle now
          FetchOutcome.malformed min_load max_load st).st.proxy_domains ≠ []) := by
  unfold get_best_server_domains
  by_cases hc : st.proxy_domains = [] ∨ NORD_TTL < now - st.updated_at
  · rw [if_pos hc]
    exact ⟨rfl, fun _ => ⟨rfl, hsh _ (by simp [EXAMPLE_PROXY_URLS])⟩⟩
  · rw [if_neg hc]
    exact ⟨rfl, fun h => absurd h hc⟩

/-- C8, witness for the amended theorem at a concrete input. -/
theorem C8_witness :
    (get_best_server_domains id 50 FetchOutcome.malformed 1 60
        { proxy_domains := [], updated_at := 0, index := 0 }).raised = false ∧
    (get_best_server_domains id 50 FetchOutcome.malformed 1 60
        { proxy_domains := [], updated_at := 0, index := 0 }).st.proxy_domains ≠ [] := by
  have h := C8_amended id 50 1 60
    { proxy_domains := [], updated_at := 0, index := 0 } (fun l hl => by simpa using hl)
  exact ⟨h.1, (h.2 (Or.inl rfl)).2⟩

/-! ## Claim C9 -/

/-- C9: with a populated pool of `n` hosts, a cursor in range and no call
falling outside the TTL window (so no refresh happens), `n + 1`
successive `get_new_proxy` calls rotate round-robin: call `j` returns the
host at `(index + j) mod n`, call 1 returns the host at the cursor, and
call `n + 1` returns the same host as call 1. -/
theorem C9_theorem (shuffle : List String → List String) (nows : Nat → Int)
    (fetches : Nat → FetchOutcome) (user password : String) (st : NordState)
    (hne : st.proxy_domains ≠ []) (hidx : st.index < st.proxy_domains.length)
    (hfresh : ∀ j, j < st.proxy_domains.length + 1 →
      nows j - st.updated_at ≤ NORD_TTL) :
    (nordCalls shuffle nows fetches user password 0
        (st.proxy_domains.length + 1) st).1.get? st.proxy_domains.length
      = (nordCalls shuffle nows fetches user password 0
        (st.proxy_domains.length + 1) st).1.get? 0 ∧
    (nordCalls shuffle nows fetches user password 0
        (st.proxy_domains.length + 1) st).1.get? 0
      = some (some (nordProxyUrl user password (st.proxy_domains.getD st.index ""))) ∧
    ∀ j, j < st.proxy_domains.length + 1 →
      (nordCalls shuffle nows fetches user password 0
          (st.proxy_domains.length + 1) st).1.get? j
        = some (some (nordProxyUrl user password
            (st.proxy_domains.getD ((st.index + j) % st.proxy_domains.length) ""))) := by
  obtain ⟨e1, e2⟩ := nordCalls_no_refresh shuffle nows fetches user password
    (st.proxy_domains.length + 1) 0 st hne hidx
    (fun j hj => by simpa using hfresh j hj)
  have hn : (st.index + st.proxy_domains.length) % st.proxy_domains.length = st.index := by
    rw [Nat.add_mod_right]
    exact Nat.mod_eq_of_lt hidx
  have h0 : (st.index + 0) % st.proxy_domains.length = st.index := by
    rw [Nat.add_zero]
    exact Nat.mod_eq_of_lt hidx
  refine ⟨?_, ?_, e2⟩
  · rw [e2 st.proxy_domains.length (by omega), e2 0 (by omega), hn, h0]
  · rw [e2 0 (by omega), h0]

/-- C9, witness at a concrete pool of three hosts: the fourth call
returns the same host as the first. -/
theorem C9_witness :
    (nordCalls id (fun _ => 10) (fun _ => FetchOutcome.malformed) "u" "p" 0 4
        { proxy_domains := ["a", "b", "c"], updated_at := 0, index := 0 }).1.get? 3
      = (nordCalls id (fun _ => 10) (fun _ => FetchOutcome.malformed) "u" "p" 0 4
        { proxy_domains := ["a", "b", "c"], updated_at := 0, index := 0 }).1.get? 0 :=
  (C9_theorem id (fun _ => 10) (fun _ => FetchOutcome.malformed) "u" "p"
    { proxy_domains := ["a", "b", "c"], updated_at := 0, index := 0 }
    (by simp) (by simp) (fun j hj => by norm_num [NORD_TTL])).1

/-! ## Claim C10 -/

/-- C10: two `ProxyrackProvider` instances constructed without an explicit
`options` argument share one `ProxyrackOptions` object whose `session`
uuid was drawn exactly once, when the class body executed: their options
and username option-strings are identical, their endpoints coincide for
the same port state, constructing them draws no further uuid, and — by
contrast — two explicit `ProxyrackOptions()` constructions would draw two
distinct session ids. -/
theorem C10_theorem (user api_key : String) (g : UuidGen) (idx : Nat) :
    (proxyrackP1 user api_key g).1.options = (proxyrackP2 user api_key g).1.options ∧
    (proxyrackP1 user api_key g).1.options.session = g.counter ∧
    (loadProxyrackModule user api_key g).gen.counter = g.counter + 1 ∧
    (proxyrackP2 user api_key g).2 = (loadProxyrackModule user api_key g).gen ∧
    proxyrackOptionStr (proxyrackP1 user api_key g).1.options
      = proxyrackOptionStr (proxyrackP2 user api_key g).1.options ∧
    (proxyrack_get_new_proxy (loadProxyrackModule user api_key g)
        (proxyrackP1 user api_key g).1 idx).1
      = (proxyrack_get_new_proxy (loadProxyrackModule user api_key g)
        (proxyrackP2 user api_key g).1 idx).1 ∧
    (mkProxyrackOptions (loadProxyrackModule user api_key g).gen).1.session
      ≠ (mkProxyrackOptions
          (mkProxyrackOptions (loadProxyrackModule user api_key g).gen).2).1.session := by
  refine ⟨rfl, rfl, rfl, rfl, rfl, rfl, ?_⟩
  simp [mkProxyrackOptions, freshUuid, loadProxyrackModule]


end Requru
